import Mathlib

set_option maxRecDepth 40000

/-!
Verification of the trip-planner core: weather scoring, viability
aggregation, itinerary quality scoring, and the workflow routing
functions, shallowly embedded from the Python sources
(tools/weather_tool.py, tools/travel_tools.py, agents/trip_planner.py).

Numbers are modelled as rationals (Python floats in this code only ever
hold exact small decimal values produced by integer additions and one
division), strings as Lean strings, Python dict-key absence as Option.
-/

namespace TripPlanner

/-- Python substring test helper: does the character list of the needle
occur as a contiguous run starting at the head of the haystack list? -/
def charsStartWith : List Char → List Char → Bool
  | [], _ => true
  | _ :: _, [] => false
  | n :: ns, h :: hs => n == h && charsStartWith ns hs

/-- Python substring test helper: does the needle occur as a contiguous
run anywhere in the haystack list? -/
def charsContain : List Char → List Char → Bool
  | [], needle => charsStartWith needle []
  | h :: hs, needle => charsStartWith needle (h :: hs) || charsContain hs needle

/-- Embedding of the Python expression `needle in hay` on strings. -/
def strContains (hay needle : String) : Bool :=
  charsContain hay.toList needle.toList

/-- Embedding of `any(word in hay for word in words)`. -/
def anyWord (words : List String) (hay : String) : Bool :=
  words.any (fun w => strContains hay w)

/-- Embedding of `all(word in hay for word in words)`. -/
def allWords (words : List String) (hay : String) : Bool :=
  words.all (fun w => strContains hay w)

/-- Embedding of Python str.lower(), character by character (the
descriptions and feedback strings this code handles are ASCII). -/
def strToLower (s : String) : String :=
  String.mk (s.data.map Char.toLower)

/-- Python max on two rationals (used for the lower clamp). -/
def pymax (a b : ℚ) : ℚ := if a ≤ b then b else a

/-- Python min on two rationals (used for the upper clamp). -/
def pymin (a b : ℚ) : ℚ := if a ≤ b then a else b

/-! ## Scoring engine (tools/weather_tool.py) -/

/-- Temperature adjustment applied by
WeatherTool._calculate_daily_suitability_score (weather_tool.py lines
298-306): the first if/elif chain, expressed as the delta it adds. -/
def temperature_adjustment (temp : ℚ) : ℚ :=
  if temp < 0 ∨ 40 < temp then -40
  else if temp < 5 ∨ 35 < temp then -25
  else if temp < 10 ∨ 30 < temp then -15
  else if 18 ≤ temp ∧ temp ≤ 28 then 10
  else 0

/-- Weather-condition adjustment applied by
WeatherTool._calculate_daily_suitability_score (weather_tool.py lines
308-321); the argument is the already lower-cased description. -/
def condition_adjustment (desc_lower : String) : ℚ :=
  if anyWord ["storm", "hurricane", "tornado"] desc_lower then -50
  else if anyWord ["heavy rain", "thunderstorm"] desc_lower then -40
  else if anyWord ["rain", "shower"] desc_lower then -20
  else if anyWord ["snow", "sleet"] desc_lower then -30
  else if anyWord ["clear", "sunny"] desc_lower then 15
  else if strContains desc_lower "cloud" then 5
  else 0

/-- Wind adjustment applied by
WeatherTool._calculate_daily_suitability_score (weather_tool.py lines
323-327). -/
def wind_adjustment (wind : ℚ) : ℚ :=
  if 25 < wind then -20 else if 15 < wind then -10 else 0

/-- WeatherTool._calculate_daily_suitability_score (weather_tool.py lines
294-329): base 100, the three adjustment axes, then clamp to [0, 100].
The rain_prob parameter is accepted (as in the Python signature) but never
read by the body. -/
def calculate_daily_suitability_score (temp : ℚ) (description : String)
    (wind : ℚ) (rain_prob : ℚ) : ℚ :=
  let score : ℚ := 100
  let score := score + temperature_adjustment temp
  let score := score + condition_adjustment (strToLower description)
  let score := score + wind_adjustment wind
  let _ := rain_prob
  pymax 0 (pymin 100 score)

/-- WeatherTool._get_overall_recommendation (weather_tool.py lines
363-372). -/
def get_overall_recommendation (score : ℚ) : String :=
  if 80 ≤ score then "Excellent weather conditions for your trip!"
  else if 60 ≤ score then "Good weather conditions with minor considerations."
  else if 40 ≤ score then "Fair weather - some days may require alternative plans."
  else "Poor weather conditions - consider rescheduling or indoor alternatives."

/-! ## Weather-data bundle and viability aggregation -/

/-- The extended_analysis sub-dictionary built by
WeatherTool.get_extended_weather_forecast (weather_tool.py lines 122-130),
reduced to the fields the aggregation layer reads: the per-day suitability
scores, the overall trip score and the overall recommendation
(trip_duration and the per-day descriptive fields are never read by the
viability or consistency layers). -/
structure ExtendedAnalysis where
  daily_scores : List ℚ
  overall_trip_score : ℚ
  overall_recommendation : String
  deriving DecidableEq

/-- The weather-data dictionary as consumed by the aggregation layer.
hasError models the presence of an "error" key; Option models absence of
the other keys (viability_reason and recommendations default to "" and []
via .get, so they are kept plain). -/
structure WeatherData where
  hasError : Bool
  viability_score : Option ℚ
  viability_reason : String
  recommendations : List String
  extended_analysis : Option ExtendedAnalysis
  deriving DecidableEq

/-- The overall-trip-score computation of
WeatherTool.get_extended_weather_forecast (weather_tool.py line 117):
mean of the daily scores when any exist, else the basic forecast's
viability_score with Python default 50. -/
def compute_overall_trip_score (daily_scores : List ℚ) (basic_viability : Option ℚ) : ℚ :=
  if daily_scores ≠ [] then daily_scores.sum / (daily_scores.length : ℚ)
  else basic_viability.getD 50

/-- The bundle assembly of WeatherTool.get_extended_weather_forecast
(weather_tool.py lines 115-130) given the basic forecast and the per-day
suitability scores: writes the overall score back into viability_score
(line 120) and attaches the extended_analysis dictionary. -/
def extend_with_daily_scores (basic : WeatherData) (daily_scores : List ℚ) : WeatherData :=
  let overall := compute_overall_trip_score daily_scores basic.viability_score
  { basic with
    viability_score := some overall,
    extended_analysis := some
      { daily_scores := daily_scores,
        overall_trip_score := overall,
        overall_recommendation := get_overall_recommendation overall } }

/-- Result record of TravelTools.check_weather_viability
(travel_tools.py lines 68-105). -/
structure Viability where
  viable : Bool
  score : ℚ
  reason : String
  warnings : List String
  recommendations : List String
  deriving DecidableEq

/-- TravelTools.check_weather_viability (travel_tools.py lines 68-105):
error bundles short-circuit; otherwise the score comes from the extended
analysis when present, else from viability_score with default 50; verdict
is score >= 40; a poor warning below 30, a moderate warning below 50. -/
def check_weather_viability (w : WeatherData) : Viability :=
  if w.hasError then
    { viable := false, score := 0, reason := "Weather data unavailable",
      warnings := ["Cannot verify weather conditions"],
      recommendations := ["Check weather manually"] }
  else
    let scoreRec : ℚ × String :=
      match w.extended_analysis with
      | some ea => (ea.overall_trip_score, ea.overall_recommendation)
      | none => (w.viability_score.getD 50, w.viability_reason)
    let trip_score := scoreRec.1
    let viability : Viability :=
      { viable := decide (40 ≤ trip_score), score := trip_score,
        reason := scoreRec.2, warnings := [],
        recommendations := w.recommendations }
    if trip_score < 30 then
      { viability with warnings := viability.warnings ++ ["Poor weather conditions expected"] }
    else if trip_score < 50 then
      { viability with warnings := viability.warnings ++ ["Moderate weather conditions"] }
    else viability

/-- Result record of WeatherTool.get_consistent_weather_score
(weather_tool.py lines 374-406); display_text is the score/level pair
rendered as text and carries no extra information. -/
structure ConsistentScore where
  score : ℚ
  level : String
  recommendation : String
  deriving DecidableEq

/-- WeatherTool.get_consistent_weather_score (weather_tool.py lines
374-406): same canonical score selection as check_weather_viability, plus
the level bucketing. -/
def get_consistent_weather_score (w : WeatherData) : ConsistentScore :=
  if w.hasError then
    { score := 0, level := "Unknown", recommendation := "Weather data unavailable" }
  else
    let scoreRec : ℚ × String :=
      match w.extended_analysis with
      | some ea => (ea.overall_trip_score, ea.overall_recommendation)
      | none => (w.viability_score.getD 50, w.viability_reason)
    let score := scoreRec.1
    let level :=
      if 80 ≤ score then "Excellent"
      else if 60 ≤ score then "Good"
      else if 40 ≤ score then "Fair"
      else if 20 ≤ score then "Poor"
      else "Very Poor"
    { score := score, level := level, recommendation := scoreRec.2 }

/-! ## Itinerary quality (agents/trip_planner.py) -/

/-- TripPlannerAgent._calculate_itinerary_quality (trip_planner.py lines
427-446): 0 for empty text, else base 50 with length, structure and
comprehensiveness bonuses, capped at 100. -/
def calculate_itinerary_quality (itinerary : String) : ℚ :=
  if itinerary = "" then 0
  else
    let score : ℚ := 50
    let score := if 500 < itinerary.length then score + 20 else score
    let score := if anyWord ["Day 1", "Day 2", "Morning", "Afternoon"] itinerary then score + 20 else score
    let score := if allWords ["hotel", "activities", "restaurant"] itinerary then score + 10 else score
    pymin 100 score

/-- Modelled from the spec wording of the itinerary quality rule, to be
compared with the source embedding: 0 for empty text, else
min(100, 50 + length bonus + marker bonus + keyword bonus). -/
def itinerary_quality_spec_form (itinerary : String) : ℚ :=
  if itinerary = "" then 0
  else
    pymin 100 (50 + (if 500 < itinerary.length then 20 else 0)
      + (if anyWord ["Day 1", "Day 2", "Morning", "Afternoon"] itinerary then 20 else 0)
      + (if allWords ["hotel", "activities", "restaurant"] itinerary then 10 else 0))

/-! ## Trip state and routing functions (agents/trip_planner.py) -/

/-- The slice of TripPlannerState (agents/state.py) read by the routing
functions and the nodes under verification. Option models keys that may be
absent from the partial state dictionary. -/
structure TripState where
  destination : Option String := none
  travel_dates : Option String := none
  duration : Option ℚ := none
  budget : Option ℚ := none
  requires_input : Option Bool := none
  weather_data : Option WeatherData := none
  weather_analysis : String := ""
  weather_viability : Option Viability := none
  weather_score : Option ℚ := none
  itinerary_quality_score : Option ℚ := none
  user_feedback : Option String := none
  error_message : Option String := none
  deriving DecidableEq

/-- Python truthiness of state.get with no default on the error_message
key: present and a non-empty string. -/
def error_message_set (s : TripState) : Bool :=
  match s.error_message with
  | some m => !(m == "")
  | none => false

/-- TripPlannerAgent.decide_after_input_collection (trip_planner.py lines
374-380). -/
def decide_after_input_collection (s : TripState) : String :=
  if error_message_set s then "error"
  else if !(s.requires_input.getD true) then "complete"
  else "incomplete"

/-- TripPlannerAgent.decide_after_data_collection (trip_planner.py lines
382-388). -/
def decide_after_data_collection (s : TripState) : String :=
  if error_message_set s then "error"
  else
    match s.weather_data with
    | some w => if w.hasError = false then "weather_check" else "direct_planning"
    | none => "direct_planning"

/-- TripPlannerAgent.decide_after_weather_analysis (trip_planner.py lines
390-397): reads only weather_viability (with dict defaults viable=False,
score=0); it never consults error_message. -/
def decide_after_weather_analysis (s : TripState) : String :=
  let viable := match s.weather_viability with | some v => v.viable | none => false
  let score : ℚ := match s.weather_viability with | some v => v.score | none => 0
  if viable then "favorable"
  else if score < 30 then "unfavorable"
  else "conditional"

/-- TripPlannerAgent.decide_after_itinerary (trip_planner.py lines
399-405). -/
def decide_after_itinerary (s : TripState) : String :=
  if error_message_set s then "error"
  else if 70 ≤ s.itinerary_quality_score.getD 0 then "success"
  else "needs_improvement"

/-- TripPlannerAgent.decide_after_feedback (trip_planner.py lines
412-420): keyword sets are exactly weather/rain and hotel/flight; it never
consults error_message. -/
def decide_after_feedback (s : TripState) : String :=
  let feedback := strToLower (s.user_feedback.getD "")
  if anyWord ["weather", "rain"] feedback then "weather_recheck"
  else if anyWord ["hotel", "flight"] feedback then "new_search"
  else "regenerate"

/-- The next_action classifier inside the handle_feedback node
(trip_planner.py lines 350-371), which uses the fuller keyword sets
weather/rain/storm, hotel/accommodation/stay and itinerary/schedule/plan;
its result is stored in current_step for display only and is not the
routing decision. -/
def handle_feedback_next_action (s : TripState) : String :=
  let feedback := strToLower (s.user_feedback.getD "")
  if anyWord ["weather", "rain", "storm"] feedback then "weather_recheck"
  else if anyWord ["hotel", "accommodation", "stay"] feedback then "new_search"
  else if anyWord ["itinerary", "schedule", "plan"] feedback then "regenerate"
  else "regenerate"

/-- The state update produced by the success branch of
TripPlannerAgent.gather_travel_data (trip_planner.py lines 159-174),
restricted to the weather fields: it writes weather_data,
weather_analysis and weather_viability; weather_score is not among the
returned keys, so the partial-update merge leaves it unchanged. -/
def gather_success_update (s : TripState) (w : WeatherData) (analysis : String) : TripState :=
  { s with
    weather_data := some w,
    weather_analysis := analysis,
    weather_viability := some (check_weather_viability w) }

/-- The number interpolated into the analysis text by
TripPlannerAgent.analyze_weather (trip_planner.py lines 198-200):
state.get with default 0 on the weather_score key, a field no node ever
writes. -/
def analyze_weather_displayed_score (s : TripState) : ℚ :=
  s.weather_score.getD 0

/-! ## Sample values used by concrete witnesses -/

/-- A basic (no extended analysis) error-free bundle with a single-point
viability score of 60. -/
def sampleBasicBundle : WeatherData :=
  { hasError := false, viability_score := some 60,
    viability_reason := "Perfect temperature", recommendations := [],
    extended_analysis := none }

/-- A bundle carrying an error marker. -/
def sampleErrorBundle : WeatherData :=
  { hasError := true, viability_score := none, viability_reason := "",
    recommendations := [], extended_analysis := none }

/-- An error-free bundle with neither extended analysis nor viability
score. -/
def sampleEmptyBundle : WeatherData :=
  { hasError := false, viability_score := none, viability_reason := "",
    recommendations := [], extended_analysis := none }

/-- A 600-character itinerary text containing "Day 1" and the three
content-category keywords. -/
def sampleItinerary : String :=
  "Day 1: hotel activities restaurant " ++ String.mk (List.replicate 565 'x')

/-- The canonical score selection shared by check_weather_viability and
get_consistent_weather_score on error-free bundles: the extended overall
trip score when the extended analysis exists, else the single-point
viability score with default 50. -/
def canonical_score (w : WeatherData) : ℚ :=
  match w.extended_analysis with
  | some ea => ea.overall_trip_score
  | none => w.viability_score.getD 50

/-! ## Helper lemmas -/

theorem check_weather_viability_score_eq (w : WeatherData) (h : w.hasError = false) :
    (check_weather_viability w).score = canonical_score w := by
  unfold check_weather_viability canonical_score
  simp only [h, Bool.false_eq_true, if_false]
  rcases w.extended_analysis with _ | ea <;> simp <;> split_ifs <;> rfl

theorem check_weather_viability_viable_eq (w : WeatherData) (h : w.hasError = false) :
    (check_weather_viability w).viable = decide (40 ≤ canonical_score w) := by
  unfold check_weather_viability canonical_score
  simp only [h, Bool.false_eq_true, if_false]
  rcases w.extended_analysis with _ | ea <;> simp <;> split_ifs <;> rfl

theorem check_weather_viability_warnings_eq (w : WeatherData) (h : w.hasError = false) :
    (check_weather_viability w).warnings =
      (if canonical_score w < 30 then ["Poor weather conditions expected"]
       else if canonical_score w < 50 then ["Moderate weather conditions"]
       else []) := by
  unfold check_weather_viability canonical_score
  simp only [h, Bool.false_eq_true, if_false]
  rcases w.extended_analysis with _ | ea <;> simp <;> split_ifs <;> rfl

theorem get_consistent_weather_score_score_eq (w : WeatherData) (h : w.hasError = false) :
    (get_consistent_weather_score w).score = canonical_score w := by
  unfold get_consistent_weather_score canonical_score
  simp only [h, Bool.false_eq_true, if_false]
  rcases w.extended_analysis with _ | ea <;> simp

/-! ## Claim theorems -/

/-- Claim C1, evaluated at the failing input: the analyze-weather node
interpolates the weather_score state field (Python default 0) into its
displayed analysis text, but the data-gathering update never writes that
field, so after gathering a bundle whose canonical viability score is 60
the node displays 0 while the viability aggregator and the
consistent-score helper both report 60 for the same state: two layers
produce different numbers, violating the single-canonical-source rule. -/
theorem weather_score_display_diverges :
    analyze_weather_displayed_score (gather_success_update {} sampleBasicBundle "") = 0 ∧
    (gather_success_update {} sampleBasicBundle "").weather_score = none ∧
    (check_weather_viability sampleBasicBundle).score = 60 ∧
    (get_consistent_weather_score sampleBasicBundle).score = 60 := by
  decide

/-- Claim C2: for error-free bundles the aggregator score is the
arithmetic mean of the per-day suitability scores whenever the bundle was
extended with a nonempty multi-day breakdown, else the single-point
viability score; the verdict is exactly score >= 40; the poor-conditions
warning appears exactly when score < 30 and the moderate-conditions
warning exactly when 30 <= score < 50; and the trip score of the daily
scores [80, 60, 40] is 60. -/
theorem check_weather_viability_canonical_scoring :
    (∀ (basic : WeatherData) (ds : List ℚ), basic.hasError = false → ds ≠ [] →
      (check_weather_viability (extend_with_daily_scores basic ds)).score
        = ds.sum / (ds.length : ℚ)) ∧
    (∀ (w : WeatherData) (q : ℚ), w.hasError = false → w.extended_analysis = none →
      w.viability_score = some q → (check_weather_viability w).score = q) ∧
    (∀ w : WeatherData, w.hasError = false →
      ((check_weather_viability w).viable = true ↔ 40 ≤ (check_weather_viability w).score)) ∧
    (∀ w : WeatherData, w.hasError = false →
      (("Poor weather conditions expected" ∈ (check_weather_viability w).warnings)
        ↔ (check_weather_viability w).score < 30) ∧
      (("Moderate weather conditions" ∈ (check_weather_viability w).warnings)
        ↔ (30 ≤ (check_weather_viability w).score ∧ (check_weather_viability w).score < 50))) ∧
    compute_overall_trip_score [80, 60, 40] none = 60 := by
  refine ⟨?_, ?_, ?_, ?_, ?_⟩
  · intro basic ds h1 h2
    have hext : (extend_with_daily_scores basic ds).hasError = false := h1
    rw [check_weather_viability_score_eq _ hext]
    simp [extend_with_daily_scores, canonical_score, compute_overall_trip_score, h2]
  · intro w q h1 h2 h3
    rw [check_weather_viability_score_eq _ h1]
    simp [canonical_score, h2, h3]
  · intro w h
    rw [check_weather_viability_viable_eq _ h, check_weather_viability_score_eq _ h]
    simp [decide_eq_true_iff]
  · intro w h
    rw [check_weather_viability_warnings_eq _ h, check_weather_viability_score_eq _ h]
    refine ⟨?_, ?_⟩ <;>
        (split_ifs with h30 h50 <;> simp) <;>
        first
          | linarith
          | (intro hc; linarith)
          | (constructor <;> linarith)
  · have hne : ¬([80, 60, 40] : List ℚ) = [] := by simp
    norm_num [compute_overall_trip_score, hne]

/-- Witness for claim C2 at concrete inputs: extending an error-free
bundle with the daily scores [80, 60, 40] makes the aggregator score
their mean, and the verdict equivalence holds for the basic sample
bundle. -/
theorem check_weather_viability_canonical_scoring_witness :
    (check_weather_viability (extend_with_daily_scores sampleEmptyBundle [80, 60, 40])).score
      = (([80, 60, 40] : List ℚ).sum / ((([80, 60, 40] : List ℚ).length) : ℚ)) ∧
    ((check_weather_viability sampleBasicBundle).viable = true
      ↔ 40 ≤ (check_weather_viability sampleBasicBundle).score) :=
  ⟨check_weather_viability_canonical_scoring.1 sampleEmptyBundle [80, 60, 40] rfl (by decide),
   check_weather_viability_canonical_scoring.2.2.1 sampleBasicBundle rfl⟩

/-- Claim C3: a bundle carrying an error marker yields score 0, verdict
false and the data-unavailable reason. -/
theorem check_weather_viability_error_case (w : WeatherData) (h : w.hasError = true) :
    check_weather_viability w =
      { viable := false, score := 0, reason := "Weather data unavailable",
        warnings := ["Cannot verify weather conditions"],
        recommendations := ["Check weather manually"] } := by
  unfold check_weather_viability
  simp [h]

/-- Witness for claim C3 at the concrete error bundle. -/
theorem check_weather_viability_error_case_witness :
    check_weather_viability sampleErrorBundle =
      { viable := false, score := 0, reason := "Weather data unavailable",
        warnings := ["Cannot verify weather conditions"],
        recommendations := ["Check weather manually"] } :=
  check_weather_viability_error_case sampleErrorBundle rfl

/-- Counterexample to claim C4: with a non-empty error message in the
state, the router after weather analysis still returns the happy-path key
"favorable" (towards SearchLodging), because it consults only
weather_viability and never error_message. -/
theorem error_routing_counterexample :
    error_message_set
        { error_message := some "data collection failed",
          weather_viability := some (check_weather_viability sampleBasicBundle) } = true ∧
    decide_after_weather_analysis
        { error_message := some "data collection failed",
          weather_viability := some (check_weather_viability sampleBasicBundle) }
      = "favorable" ∧
    "favorable" ≠ "error" := by
  decide

/-- Claim C4 as amended: the routers after input collection, after data
collection and after itinerary generation do route to the error path
whenever error_message is a non-empty string, but the routers after
weather analysis and after feedback never consult error_message: their
decision is unchanged under any modification of that field. -/
theorem error_routing_amended :
    (∀ s : TripState, error_message_set s = true →
      decide_after_input_collection s = "error" ∧
      decide_after_data_collection s = "error" ∧
      decide_after_itinerary s = "error") ∧
    (∀ (s : TripState) (m : Option String),
      decide_after_weather_analysis { s with error_message := m }
        = decide_after_weather_analysis s ∧
      decide_after_feedback { s with error_message := m }
        = decide_after_feedback s) := by
  constructor
  · intro s h
    refine ⟨?_, ?_, ?_⟩ <;>
      simp [decide_after_input_collection, decide_after_data_collection,
        decide_after_itinerary, h]
  · intro s m
    exact ⟨rfl, rfl⟩

/-- Witness for the amended claim C4 at a concrete state carrying a
non-empty error message. -/
theorem error_routing_amended_witness :
    decide_after_input_collection { error_message := some "boom" } = "error" ∧
    decide_after_data_collection { error_message := some "boom" } = "error" ∧
    decide_after_itinerary { error_message := some "boom" } = "error" :=
  error_routing_amended.1 { error_message := some "boom" } (by decide)

/-- Counterexample to claim C5: the daily suitability score at
temperature -5, description "thunderstorm" and wind 10 is not 0, because
"storm" is a substring of "thunderstorm" and the storm branch (-50) fires
before the thunderstorm branch (-40) could. -/
theorem daily_score_thunderstorm_counterexample :
    calculate_daily_suitability_score (-5) "thunderstorm" 10 0 ≠ 0 := by
  have h : anyWord ["storm", "hurricane", "tornado"] (strToLower "thunderstorm") = true := rfl
  norm_num [calculate_daily_suitability_score, temperature_adjustment,
    condition_adjustment, wind_adjustment, pymax, pymin, h]

/-- Claim C5 as amended: the daily suitability score at temperature -5,
description "thunderstorm" and wind 10 equals 10 (base 100, minus 40 for
the temperature, minus 50 because the substring "storm" matches the
first condition branch), and "storm" is indeed a substring of the
lower-cased description. -/
theorem daily_score_thunderstorm_amended :
    calculate_daily_suitability_score (-5) "thunderstorm" 10 0 = 10 ∧
    strContains (strToLower "thunderstorm") "storm" = true := by
  have h : anyWord ["storm", "hurricane", "tornado"] (strToLower "thunderstorm") = true := rfl
  refine ⟨?_, rfl⟩
  norm_num [calculate_daily_suitability_score, temperature_adjustment,
    condition_adjustment, wind_adjustment, pymax, pymin, h]

/-- Counterexample to claim C6: the boundary temperatures 0 and 40 do not
receive the -40 adjustment (they receive -25), because the source
comparisons are strict (temp < 0 or temp > 40). -/
theorem temperature_adjustment_boundary_counterexample :
    temperature_adjustment 0 ≠ -40 ∧ temperature_adjustment 40 ≠ -40 ∧
    temperature_adjustment 0 = -25 ∧ temperature_adjustment 40 = -25 := by
  norm_num [temperature_adjustment]

/-- Claim C6 as amended: the temperature adjustment is -40 for t < 0 or
t > 40 (strictly), -25 on [0, 5) and (35, 40], -15 on [5, 10) and
(30, 35], +10 on [18, 28], and 0 otherwise; in particular t = 0 and
t = 40 receive -25. -/
theorem temperature_adjustment_amended (t : ℚ) :
    temperature_adjustment t =
      if t < 0 ∨ 40 < t then -40
      else if (0 ≤ t ∧ t < 5) ∨ (35 < t ∧ t ≤ 40) then -25
      else if (5 ≤ t ∧ t < 10) ∨ (30 < t ∧ t ≤ 35) then -15
      else if 18 ≤ t ∧ t ≤ 28 then 10
      else 0 := by
  unfold temperature_adjustment
  by_cases h1 : t < 0 ∨ 40 < t
  · simp only [if_pos h1]
  · have ha : 0 ≤ t := not_lt.mp (not_or.mp h1).1
    have hb : t ≤ 40 := not_lt.mp (not_or.mp h1).2
    simp only [if_neg h1]
    by_cases h2 : t < 5 ∨ 35 < t
    · have h2b : (0 ≤ t ∧ t < 5) ∨ (35 < t ∧ t ≤ 40) := by
        rcases h2 with h | h
        · exact Or.inl ⟨ha, h⟩
        · exact Or.inr ⟨h, hb⟩
      simp only [if_pos h2, if_pos h2b]
    · have h5 : 5 ≤ t := not_lt.mp (not_or.mp h2).1
      have h35 : t ≤ 35 := not_lt.mp (not_or.mp h2).2
      have h2b : ¬((0 ≤ t ∧ t < 5) ∨ (35 < t ∧ t ≤ 40)) := by
        rintro (⟨_, hlt⟩ | ⟨hgt, _⟩) <;> linarith
      simp only [if_neg h2, if_neg h2b]
      by_cases h3 : t < 10 ∨ 30 < t
      · have h3b : (5 ≤ t ∧ t < 10) ∨ (30 < t ∧ t ≤ 35) := by
          rcases h3 with h | h
          · exact Or.inl ⟨h5, h⟩
          · exact Or.inr ⟨h, h35⟩
        simp only [if_pos h3, if_pos h3b]
      · have h3b : ¬((5 ≤ t ∧ t < 10) ∨ (30 < t ∧ t ≤ 35)) := by
          rintro (⟨_, hlt⟩ | ⟨hgt, _⟩)
          · exact absurd hlt (not_lt.mp (not_or.mp h3).1).not_lt
          · exact absurd hgt (not_lt.mp (not_or.mp h3).2).not_lt
        simp only [if_neg h3, if_neg h3b]

/-- Claim C7: for all inputs the daily suitability score lies in
[0, 100], and it depends on nothing besides the temperature, the
description text and the wind speed: the unused rain-probability argument
never changes the result. -/
theorem daily_score_bounds_and_pure (temp : ℚ) (description : String)
    (wind rain_prob rain_prob2 : ℚ) :
    0 ≤ calculate_daily_suitability_score temp description wind rain_prob ∧
    calculate_daily_suitability_score temp description wind rain_prob ≤ 100 ∧
    calculate_daily_suitability_score temp description wind rain_prob
      = calculate_daily_suitability_score temp description wind rain_prob2 := by
  refine ⟨?_, ?_, rfl⟩ <;>
    · unfold calculate_daily_suitability_score pymax pymin
      dsimp only
      split_ifs <;> linarith

/-- Claim C8: the itinerary quality score is 0 on the empty text and
otherwise equals 50 plus 20 for length over 500, plus 20 for any
structure marker, plus 10 for all three content keywords, capped at 100;
in particular the empty text scores 0 and the 600-character sample with
"Day 1" and all three keywords scores 100. -/
theorem itinerary_quality_correct :
    (∀ s : String, calculate_itinerary_quality s = itinerary_quality_spec_form s) ∧
    calculate_itinerary_quality "" = 0 ∧
    sampleItinerary.length = 600 ∧
    calculate_itinerary_quality sampleItinerary = 100 := by
  refine ⟨?_, rfl, by decide, ?_⟩
  · intro s
    unfold calculate_itinerary_quality itinerary_quality_spec_form
    dsimp only
    split_ifs <;> norm_num [pymin]
  · have hne : ¬(sampleItinerary = "") := by decide
    have hlen : 500 < sampleItinerary.length := by decide
    have hmark : anyWord ["Day 1", "Day 2", "Morning", "Afternoon"] sampleItinerary = true := rfl
    have hkey : allWords ["hotel", "activities", "restaurant"] sampleItinerary = true := rfl
    norm_num [calculate_itinerary_quality, pymin, hne, hlen, hmark, hkey]

/-- Counterexample to claim C9: feedback consisting of the word "storm"
routes to "regenerate", not to the weather recheck, because the router
after feedback scans only for the keywords weather and rain. -/
theorem feedback_routing_counterexample :
    decide_after_feedback { user_feedback := some "storm" } = "regenerate" ∧
    decide_after_feedback { user_feedback := some "storm" } ≠ "weather_recheck" := by
  decide

/-- Claim C9 as amended: the routing decision after feedback checks only
weather/rain (weather recheck) and then hotel/flight (new search),
defaulting to regenerate; the three concrete examples of the claim still
behave as stated, while the fuller keyword sets (storm, accommodation,
stay, itinerary, schedule, plan) are used only by the handle-feedback
node's displayed next-action label, not by the routing decision. -/
theorem feedback_routing_amended :
    (∀ s : TripState,
      (anyWord ["weather", "rain"] (strToLower (s.user_feedback.getD "")) = true →
        decide_after_feedback s = "weather_recheck") ∧
      (anyWord ["weather", "rain"] (strToLower (s.user_feedback.getD "")) = false →
        anyWord ["hotel", "flight"] (strToLower (s.user_feedback.getD "")) = true →
        decide_after_feedback s = "new_search") ∧
      (anyWord ["weather", "rain"] (strToLower (s.user_feedback.getD "")) = false →
        anyWord ["hotel", "flight"] (strToLower (s.user_feedback.getD "")) = false →
        decide_after_feedback s = "regenerate")) ∧
    decide_after_feedback { user_feedback := some "the weather looks stormy" } = "weather_recheck" ∧
    decide_after_feedback { user_feedback := some "need a different hotel" } = "new_search" ∧
    decide_after_feedback { user_feedback := some "looks fine" } = "regenerate" ∧
    handle_feedback_next_action { user_feedback := some "storm" } = "weather_recheck" ∧
    handle_feedback_next_action { user_feedback := some "need accommodation" } = "new_search" := by
  refine ⟨?_, by decide, by decide, by decide, by decide, by decide⟩
  intro s
  refine ⟨fun h1 => ?_, fun h1 h2 => ?_, fun h1 h2 => ?_⟩
  · simp [decide_after_feedback, h1]
  · simp [decide_after_feedback, h1, h2]
  · simp [decide_after_feedback, h1, h2]

/-- Witness for the amended claim C9 at concrete feedback strings,
discharging each keyword hypothesis. -/
theorem feedback_routing_amended_witness :
    decide_after_feedback { user_feedback := some "rainy days ahead" } = "weather_recheck" ∧
    decide_after_feedback { user_feedback := some "change my flight" } = "new_search" :=
  ⟨(feedback_routing_amended.1 { user_feedback := some "rainy days ahead" }).1 (by decide),
   (feedback_routing_amended.1 { user_feedback := some "change my flight" }).2.1
     (by decide) (by decide)⟩

/-- Counterexample to claim C10: on an error-free bundle with neither an
extended analysis nor a single-point viability score, the aggregator does
default the score to 50 and return a true verdict, but it appends no
moderate-conditions warning, because 50 < 50 fails. -/
theorem default_score_counterexample :
    (check_weather_viability sampleEmptyBundle).score = 50 ∧
    (check_weather_viability sampleEmptyBundle).viable = true ∧
    "Moderate weather conditions" ∉ (check_weather_viability sampleEmptyBundle).warnings ∧
    (check_weather_viability sampleEmptyBundle).warnings = [] := by
  decide

/-- Claim C10 as amended: an error-free bundle with neither an extended
analysis nor a viability score yields score 50, verdict true and an empty
warning list (the moderate-conditions branch requires score strictly
below 50). -/
theorem default_score_amended (w : WeatherData) (h1 : w.hasError = false)
    (h2 : w.extended_analysis = none) (h3 : w.viability_score = none) :
    check_weather_viability w =
      { viable := true, score := 50, reason := w.viability_reason,
        warnings := [], recommendations := w.recommendations } := by
  unfold check_weather_viability
  simp [h1, h2, h3]
  norm_num

/-- Witness for the amended claim C10 at the concrete empty bundle. -/
theorem default_score_amended_witness :
    check_weather_viability sampleEmptyBundle =
      { viable := true, score := 50, reason := "",
        warnings := [], recommendations := [] } :=
  default_score_amended sampleEmptyBundle rfl rfl rfl

end TripPlanner
